import Mathlib

/-
Verification of the QR scanner / message-processor repository.

Shallow embedding notes:
  * Times (Python time.time(), datetime) are modelled as Int seconds.
  * Python dicts used as tables or as the dedup map are association lists
    List (String x value); dict assignment is the function setTime below.
  * External effects (HTTP calls to the two stores, the broker publish)
    are driven by oracle Booleans saying whether the call succeeds, and
    their observable side effects are threaded as explicit state.
  * A Python function that can raise is modelled with Except String;
    a function whose body catches every exception is total.
-/

/-- One entry of the qr_codes.objects table (config_file.py): the dict
with keys name, type, serial, owner. -/
structure ObjectInfo where
  name : String
  type : String
  serial : String
  owner : String
deriving Repr, DecidableEq, Inhabited

/-- The configuration consumed by complete_rabbitmq_scanner.py:
qr_codes.locations (code to description string), qr_codes.objects, and
processing_rules.duplicate_scan_window_seconds. -/
structure QRConfig where
  locations : List (String × String)
  objects : List (String × ObjectInfo)
  duplicate_scan_window_seconds : Int
deriving Repr

/-- Mutable scanner state of CompleteBookwormScanner: self.current_location
and self.last_scans (raw text to last accepted timestamp). -/
structure ScannerState where
  current_location : Option String
  last_scans : List (String × Int)
deriving Repr, DecidableEq

/-- Python dict assignment m[k] = v on an association list: replace the
first entry with key k, or append if absent. -/
def setTime : List (String × Int) → String → Int → List (String × Int)
  | [], k, v => [(k, v)]
  | p :: rest, k, v => if k == p.1 then (k, v) :: rest else p :: setTime rest k v

/-- CompleteBookwormScanner.is_duplicate_scan (complete_rabbitmq_scanner.py
lines 365-375): within the window return True without touching the map;
otherwise record now for the key and return False. -/
def is_duplicate_scan (window : Int) (st : ScannerState) (qr_data : String)
    (now : Int) : Bool × ScannerState :=
  match st.last_scans.lookup qr_data with
  | some t =>
      if now - t < window then (true, st)
      else (false, { st with last_scans := setTime st.last_scans qr_data now })
  | none => (false, { st with last_scans := setTime st.last_scans qr_data now })

/-- The message built by CompleteBookwormScanner.create_scan_message. -/
structure ScanMessage where
  timestamp : Int
  scanner_id : String
  object_code : String
  object_info : ObjectInfo
  location_code : String
  location_info : String
  event_type : String
  source : String
deriving Repr, DecidableEq

/-- CompleteBookwormScanner.create_scan_message: object_info via
objects.get(object_code, empty dict), location_info via
locations.get(location_code, empty string). -/
def create_scan_message (cfg : QRConfig) (deviceId : String)
    (object_code location_code : String) (now : Int) : ScanMessage :=
  { timestamp := now
    scanner_id := "bookworm_pi_" ++ deviceId
    object_code := object_code
    object_info := (cfg.objects.lookup object_code).getD default
    location_code := location_code
    location_info := (cfg.locations.lookup location_code).getD ""
    event_type := "object_location_update"
    source := "bookworm_qr_scanner" }

/-- Observable publisher state: whether a broker channel exists
(self.rabbitmq_channel), the messages delivered to the broker, and the
messages written to the local log by the fallback path. -/
structure PublisherState where
  hasChannel : Bool
  published : List ScanMessage
  loggedLocally : List ScanMessage
deriving Repr, DecidableEq

/-- The try-block body of send_rabbitmq_message: basic_publish raises on
transport failure (the oracle transportOk), delivering otherwise; with no
channel it logs locally and returns False without raising. -/
def send_try_body (pub : PublisherState) (msg : ScanMessage)
    (transportOk : Bool) : Except String (Bool × PublisherState) :=
  if pub.hasChannel then
    if transportOk then
      Except.ok (true, { pub with published := pub.published ++ [msg] })
    else
      Except.error "message send failed"
  else
    Except.ok (false, { pub with loggedLocally := pub.loggedLocally ++ [msg] })

/-- CompleteBookwormScanner.send_rabbitmq_message (lines 333-363): the
except-branch logs the fully serialized message locally and returns
False, so the caller never sees an exception. -/
def send_rabbitmq_message (pub : PublisherState) (msg : ScanMessage)
    (transportOk : Bool) : Except String (Bool × PublisherState) :=
  match send_try_body pub msg transportOk with
  | Except.ok r => Except.ok r
  | Except.error _ =>
      Except.ok (false, { pub with loggedLocally := pub.loggedLocally ++ [msg] })

/-- The dict returned by CompleteBookwormScanner.process_qr_code: the
three populated shapes; the Python None return (unknown code) is the
none of the surrounding Option. -/
inductive ScanResult where
  | location (code description : String)
  | object (code : String) (object_info : ObjectInfo) (location : String)
      (message_sent : Bool)
  | object_no_location (code : String) (object_info : ObjectInfo)
deriving Repr, DecidableEq

/-- Result triple of process_qr_code: the returned value, the scanner
state, and the publisher state. -/
structure ProcessResult where
  result : Option ScanResult
  state : ScannerState
  publisher : PublisherState
deriving Repr, DecidableEq

/-- Python str.strip(): drop leading and trailing whitespace. Written by
structural recursion over the character list so proofs can evaluate it. -/
def pyStrip (s : String) : String :=
  ⟨((s.data.dropWhile Char.isWhitespace).reverse.dropWhile Char.isWhitespace).reverse⟩

/-- Python str.upper() on the ASCII range used by the tables. -/
def pyUpper (s : String) : String := ⟨s.data.map Char.toUpper⟩

/-- The normalization qr_data.strip().upper() of process_qr_code. -/
def pyNormalize (s : String) : String := pyUpper (pyStrip s)

/-- CompleteBookwormScanner.process_qr_code (lines 219-304): normalize
(strip + upper), two-pass lookup in locations then in objects, set
current_location on a location hit, publish only when an object is
scanned with a location set; unknown returns None. The final match arm
mirrors the except-branch (return None); send never raises. -/
def process_qr_code (cfg : QRConfig) (deviceId : String) (st : ScannerState)
    (pub : PublisherState) (qr_data : String) (now : Int)
    (transportOk : Bool) : ProcessResult :=
  let normalized := (pyNormalize qr_data)
  let location_key : Option String :=
    if (cfg.locations.lookup qr_data).isSome then some qr_data
    else if (cfg.locations.lookup normalized).isSome then some normalized
    else none
  match location_key with
  | some k =>
      let description := (cfg.locations.lookup k).getD ""
      { result := some (ScanResult.location k description)
        state := { st with current_location := some k }
        publisher := pub }
  | none =>
      let object_key : Option String :=
        if (cfg.objects.lookup qr_data).isSome then some qr_data
        else if (cfg.objects.lookup normalized).isSome then some normalized
        else none
      match object_key with
      | some k =>
          let info := (cfg.objects.lookup k).getD default
          match st.current_location with
          | some loc =>
              let msg := create_scan_message cfg deviceId k loc now
              match send_rabbitmq_message pub msg transportOk with
              | Except.ok (success, pub') =>
                  { result := some (ScanResult.object k info loc success)
                    state := st
                    publisher := pub' }
              | Except.error _ =>
                  { result := none, state := st, publisher := pub }
          | none =>
              { result := some (ScanResult.object_no_location k info)
                state := st
                publisher := pub }
      | none => { result := none, state := st, publisher := pub }

/-- Outcome of one decoded payload in the run() loop: either skipped by
the duplicate gate, or processed (with the process_qr_code value). -/
inductive StepOutcome where
  | skippedDuplicate
  | processed (result : Option ScanResult)
deriving Repr, DecidableEq

/-- Result of one loop-body step of run(). -/
structure ScanStepResult where
  outcome : StepOutcome
  state : ScannerState
  publisher : PublisherState
deriving Repr, DecidableEq

/-- One decoded payload in CompleteBookwormScanner.run (lines 417-431):
the duplicate gate runs first and mutates last_scans; only accepted
payloads reach process_qr_code. -/
def scan_step (cfg : QRConfig) (deviceId : String) (st : ScannerState)
    (pub : PublisherState) (qr_data : String) (now : Int)
    (transportOk : Bool) : ScanStepResult :=
  let dres := is_duplicate_scan cfg.duplicate_scan_window_seconds st qr_data now
  if dres.1 then
    { outcome := StepOutcome.skippedDuplicate, state := dres.2, publisher := pub }
  else
    let p := process_qr_code cfg deviceId dres.2 pub qr_data now transportOk
    { outcome := StepOutcome.processed p.result
      state := p.state
      publisher := p.publisher }

/-- Whether a raw text hits either table (so process_qr_code classifies
it rather than returning None); depends only on the configuration. -/
def classifies (cfg : QRConfig) (t : String) : Bool :=
  (cfg.locations.lookup t).isSome
    || (cfg.locations.lookup (pyNormalize t)).isSome
    || (cfg.objects.lookup t).isSome
    || (cfg.objects.lookup (pyNormalize t)).isSome

/-- How many ScanEvents a step contributes (run counts qr_count only for
non-None results of process_qr_code). -/
def classifiedCount (o : StepOutcome) : Nat :=
  match o with
  | StepOutcome.processed (some _) => 1
  | _ => 0

/-- The qr_codes.locations table of config_file.py. -/
def repoLocations : List (String × String) :=
  [("OP1", "Donetsk Oblas"), ("OP2", "Dnipropetrovsk Oblas"),
   ("OP3", "Zaporizhzhia"), ("OP4", "Kyiv Oblas"),
   ("OP5", "Kirovohrad Oblas"), ("OP6", "Mykolaivk Oblas"),
   ("OP7", "Odessa Oblas"), ("OP8", "Sumy Oblas")]

/-- The qr_codes.objects table of config_file.py. -/
def repoObjects : List (String × ObjectInfo) :=
  [("SADrone", ⟨"SADrone", "Unmanned Aircraft", "Russian Federation", "Sokol Altius Dron"⟩),
   ("KA50", ⟨"KA50", "AV Equipment", "Russian Federation", "Ka-50 Helicoptert"⟩),
   ("S500", ⟨"S500", "Vehicle", "Russian Federation", "S-500 Prometheus"⟩),
   ("OBJ004", ⟨"Fire Extinguisher", "Safety Equipment", "FE789123456", "Facilities"⟩)]

/-- The scanner-relevant part of config_file.py
(duplicate_scan_window_seconds = 30). -/
def repoConfig : QRConfig :=
  { locations := repoLocations
    objects := repoObjects
    duplicate_scan_window_seconds := 30 }

/-- Events written by logger/print during filtering: the staleness
warning and the except-branch of should_process_message. -/
inductive FilterLog where
  | staleWarning
  | rulesError
deriving Repr, DecidableEq

/-- The processing_rules consumed by MessageProcessor (config.json):
auto_update_location and notification_threshold_minutes. -/
structure ProcessingRules where
  auto_update_location : Bool
  notification_threshold_minutes : Int
deriving Repr, DecidableEq

/-- The fields of a parsed scan message that the consumer pipeline
reads; timestamp is none when datetime.fromisoformat would raise on the
carried string. -/
structure ConsumerMessage where
  object_code : String
  object_name : String
  object_type : String
  location_code : String
  location_info : String
  timestamp : Option Int
deriving Repr, DecidableEq

/-- MessageProcessor.should_process_message (lines 146-169): False only
when auto_update_location is off; a stale timestamp only logs a warning
(time_diff minutes > threshold, encoded over seconds as
now - t > threshold * 60); any exception in the rules (here: an
unparseable timestamp) logs an error and returns True. -/
def should_process_message (rules : ProcessingRules) (msg : ConsumerMessage)
    (now : Int) : Bool × List FilterLog :=
  if !rules.auto_update_location then (false, [])
  else
    match msg.timestamp with
    | none => (true, [FilterLog.rulesError])
    | some t =>
        if now - t > rules.notification_threshold_minutes * 60 then
          (true, [FilterLog.staleWarning])
        else (true, [])

/-- One upsert recorded at a record store, keyed by object_code with the
latest location_code and the message timestamp. -/
structure StoreWrite where
  object_code : String
  location_code : String
  timestamp : Option Int
deriving Repr, DecidableEq

/-- Observable state of the two record stores: ies4 is Store-A (Tencent
IES4), solr is Store-B (Apache SOLR), each a log of accepted writes. -/
structure Stores where
  ies4 : List StoreWrite
  solr : List StoreWrite
deriving Repr, DecidableEq

/-- Tags naming the two store-update calls, recorded when the
corresponding update function runs. -/
inductive StoreTag where
  | storeA
  | storeB
deriving Repr, DecidableEq

/-- The write payload both update functions derive from a message. -/
def storeWriteOf (msg : ConsumerMessage) : StoreWrite :=
  { object_code := msg.object_code
    location_code := msg.location_code
    timestamp := msg.timestamp }

/-- MessageProcessor.update_tencent_ies4 (lines 189-238): catches every
exception and returns a Bool; the oracle httpOk says whether the POST
returned 2xx. Appends its tag to the call trace when invoked. -/
def update_tencent_ies4 (msg : ConsumerMessage) (httpOk : Bool) (s : Stores)
    (trace : List StoreTag) : Bool × Stores × List StoreTag :=
  if httpOk then
    (true, { s with ies4 := s.ies4 ++ [storeWriteOf msg] }, trace ++ [StoreTag.storeA])
  else
    (false, s, trace ++ [StoreTag.storeA])

/-- MessageProcessor.update_apache_solr (lines 240-318): catches every
exception and returns a Bool; the oracle httpOk says whether both the
update POST and the commit returned 200. -/
def update_apache_solr (msg : ConsumerMessage) (httpOk : Bool) (s : Stores)
    (trace : List StoreTag) : Bool × Stores × List StoreTag :=
  if httpOk then
    (true, { s with solr := s.solr ++ [storeWriteOf msg] }, trace ++ [StoreTag.storeB])
  else
    (false, s, trace ++ [StoreTag.storeB])

/-- Result of process_location_update: overall success, the store
states, and the trace of attempted store calls. -/
structure UpdateResult where
  success : Bool
  stores : Stores
  attempts : List StoreTag
deriving Repr, DecidableEq

/-- MessageProcessor.process_location_update (lines 182-187): calls
update_tencent_ies4 then update_apache_solr unconditionally and returns
the conjunction of their results. -/
def process_location_update (msg : ConsumerMessage) (ies4Ok solrOk : Bool)
    (s : Stores) : UpdateResult :=
  let r1 := update_tencent_ies4 msg ies4Ok s []
  let r2 := update_apache_solr msg solrOk r1.2.1 r1.2.2
  { success := r1.1 && r2.1, stores := r2.2.1, attempts := r2.2.2 }

/-- MessageProcessor.should_send_notification (lines 171-180):
object_info type in the high-value list. -/
def should_send_notification (msg : ConsumerMessage) : Bool :=
  msg.object_type == "Computer" || msg.object_type == "Network Equipment"

/-- Terminal outcome of one delivery: basic_ack or basic_nack with its
requeue flag. -/
inductive Outcome where
  | acked
  | rejected (requeue : Bool)
deriving Repr, DecidableEq

/-- The consumer's processing_stats counters touched per message. -/
structure Stats where
  messages_processed : Nat
  successful_updates : Nat
  failed_updates : Nat
deriving Repr, DecidableEq

/-- Observable side effects of one delivery beyond the stores: whether
the notification check ran (and its value), whether the derived
location-update event was published, the filter logs, and the trace of
store-update calls. -/
structure Effects where
  notificationChecked : Bool
  notificationSent : Bool
  derivedEventPublished : Bool
  filterLogs : List FilterLog
  attempts : List StoreTag
deriving Repr, DecidableEq

/-- Effects of a delivery that never reached the filter or the updates. -/
def noEffects : Effects :=
  { notificationChecked := false
    notificationSent := false
    derivedEventPublished := false
    filterLogs := []
    attempts := [] }

/-- Full result of one delivery. -/
structure ConsumeResult where
  outcome : Outcome
  stores : Stores
  stats : Stats
  effects : Effects
deriving Repr, DecidableEq

/-- MessageProcessor.process_scan_message (lines 106-144). body is the
JSON parse of the delivery (none when json.loads raises, taken by the
JSONDecodeError handler: nack requeue=False). A parseable body goes
through the filter (filtered means ack with no further work), then the
dual update; a False update result only increments failed_updates and
still acks — the generic except handler (nack requeue=True) is
unreachable for these paths because the update, notification and
derived-publish functions each catch their own exceptions. -/
def process_scan_message (rules : ProcessingRules)
    (body : Option ConsumerMessage) (now : Int) (ies4Ok solrOk : Bool)
    (stores : Stores) (stats : Stats) : ConsumeResult :=
  match body with
  | none =>
      { outcome := Outcome.rejected false
        stores := stores
        stats := stats
        effects := noEffects }
  | some msg =>
      let fres := should_process_message rules msg now
      if !fres.1 then
        { outcome := Outcome.acked
          stores := stores
          stats := stats
          effects := { noEffects with filterLogs := fres.2 } }
      else
        let u := process_location_update msg ies4Ok solrOk stores
        if u.success then
          { outcome := Outcome.acked
            stores := u.stores
            stats := { stats with
              messages_processed := stats.messages_processed + 1
              successful_updates := stats.successful_updates + 1 }
            effects := { notificationChecked := true
                         notificationSent := should_send_notification msg
                         derivedEventPublished := true
                         filterLogs := fres.2
                         attempts := u.attempts } }
        else
          { outcome := Outcome.acked
            stores := u.stores
            stats := { stats with
              messages_processed := stats.messages_processed + 1
              failed_updates := stats.failed_updates + 1 }
            effects := { notificationChecked := false
                         notificationSent := false
                         derivedEventPublished := false
                         filterLogs := fres.2
                         attempts := u.attempts } }

/-- Fresh scanner state (constructor of CompleteBookwormScanner). -/
def st0 : ScannerState := { current_location := none, last_scans := [] }

/-- A publisher with an open channel and empty histories. -/
def pub0 : PublisherState :=
  { hasChannel := true, published := [], loggedLocally := [] }

/-- A sample scan message (the scenario of spec section 8). -/
def sampleMsg : ScanMessage := create_scan_message repoConfig "dev" "S500" "OP1" 5

/-- A sample well-formed consumer message for the S500 object. -/
def msg0 : ConsumerMessage :=
  { object_code := "S500", object_name := "S500", object_type := "Vehicle"
    location_code := "OP1", location_info := "Donetsk Oblas"
    timestamp := some 1000 }

/-- Rules matching config_file.py processing_rules. -/
def rules0 : ProcessingRules :=
  { auto_update_location := true, notification_threshold_minutes := 5 }

/-- Empty record stores. -/
def stores0 : Stores := { ies4 := [], solr := [] }

/-- Zeroed consumer statistics. -/
def stats0 : Stats :=
  { messages_processed := 0, successful_updates := 0, failed_updates := 0 }

/-- A scanner state that already accepted a scan of S500 at time 0. -/
def stS : ScannerState :=
  { current_location := none, last_scans := [("S500", 0)] }

theorem lookup_setTime_self (m : List (String × Int)) (k : String) (v : Int) :
    (setTime m k v).lookup k = some v := by
  induction m with
  | nil => simp [setTime, List.lookup]
  | cons p rest ih =>
      rcases p with ⟨a, b⟩
      cases hk : k == a with
      | true => simp [setTime, hk, List.lookup]
      | false => simp [setTime, hk, List.lookup, ih]

theorem setTime_of_lookup_none (m : List (String × Int)) (k : String) (v : Int)
    (h : m.lookup k = none) : setTime m k v = m ++ [(k, v)] := by
  induction m with
  | nil => simp [setTime]
  | cons p rest ih =>
      rcases p with ⟨a, b⟩
      cases hk : k == a with
      | true =>
          simp only [List.lookup, hk] at h
          cases h
      | false =>
          simp only [List.lookup, hk] at h
          simp [setTime, hk, ih h]

theorem send_total (pub : PublisherState) (msg : ScanMessage) (tOk : Bool) :
    ∃ b pub', send_rabbitmq_message pub msg tOk = Except.ok (b, pub') := by
  rcases pub with ⟨hc, p, l⟩
  cases hc <;> cases tOk <;>
    exact ⟨_, _, rfl⟩

theorem process_loc_hit_exact (cfg : QRConfig) (d : String) (st : ScannerState)
    (pub : PublisherState) (t : String) (now : Int) (tr : Bool) (desc : String)
    (h : cfg.locations.lookup t = some desc) :
    process_qr_code cfg d st pub t now tr =
      { result := some (ScanResult.location t desc)
        state := { st with current_location := some t }
        publisher := pub } := by
  simp [process_qr_code, h]

theorem process_loc_hit_norm (cfg : QRConfig) (d : String) (st : ScannerState)
    (pub : PublisherState) (t : String) (now : Int) (tr : Bool) (desc : String)
    (h1 : cfg.locations.lookup t = none)
    (h2 : cfg.locations.lookup (pyNormalize t) = some desc) :
    process_qr_code cfg d st pub t now tr =
      { result := some (ScanResult.location (pyNormalize t) desc)
        state := { st with current_location := some (pyNormalize t) }
        publisher := pub } := by
  simp [process_qr_code, h1, h2]

theorem process_obj_unlocated (cfg : QRConfig) (d : String) (st : ScannerState)
    (pub : PublisherState) (t : String) (now : Int) (tr : Bool) (info : ObjectInfo)
    (h1 : cfg.locations.lookup t = none)
    (h2 : cfg.locations.lookup (pyNormalize t) = none)
    (h3 : cfg.objects.lookup t = some info)
    (h4 : st.current_location = none) :
    process_qr_code cfg d st pub t now tr =
      { result := some (ScanResult.object_no_location t info)
        state := st, publisher := pub } := by
  simp [process_qr_code, h1, h2, h3, h4]

theorem process_obj_located (cfg : QRConfig) (d : String) (st : ScannerState)
    (pub : PublisherState) (t : String) (now : Int) (tr : Bool) (info : ObjectInfo)
    (loc : String)
    (h1 : cfg.locations.lookup t = none)
    (h2 : cfg.locations.lookup (pyNormalize t) = none)
    (h3 : cfg.objects.lookup t = some info)
    (h4 : st.current_location = some loc) :
    ∃ sent pub',
      process_qr_code cfg d st pub t now tr =
        { result := some (ScanResult.object t info loc sent)
          state := st, publisher := pub' } := by
  obtain ⟨b, pub', hs⟩ := send_total pub (create_scan_message cfg d t loc now) tr
  exact ⟨b, pub', by simp [process_qr_code, h1, h2, h3, h4, hs]⟩

theorem process_obj_norm_unlocated (cfg : QRConfig) (d : String)
    (st : ScannerState) (pub : PublisherState) (t : String) (now : Int)
    (tr : Bool) (info : ObjectInfo)
    (h1 : cfg.locations.lookup t = none)
    (h2 : cfg.locations.lookup (pyNormalize t) = none)
    (h3 : cfg.objects.lookup t = none)
    (h4 : cfg.objects.lookup (pyNormalize t) = some info)
    (h5 : st.current_location = none) :
    process_qr_code cfg d st pub t now tr =
      { result := some (ScanResult.object_no_location (pyNormalize t) info)
        state := st, publisher := pub } := by
  simp [process_qr_code, h1, h2, h3, h4, h5]

theorem process_obj_norm_located (cfg : QRConfig) (d : String)
    (st : ScannerState) (pub : PublisherState) (t : String) (now : Int)
    (tr : Bool) (info : ObjectInfo) (loc : String)
    (h1 : cfg.locations.lookup t = none)
    (h2 : cfg.locations.lookup (pyNormalize t) = none)
    (h3 : cfg.objects.lookup t = none)
    (h4 : cfg.objects.lookup (pyNormalize t) = some info)
    (h5 : st.current_location = some loc) :
    ∃ sent pub',
      process_qr_code cfg d st pub t now tr =
        { result := some (ScanResult.object (pyNormalize t) info loc sent)
          state := st, publisher := pub' } := by
  obtain ⟨b, pub', hs⟩ :=
    send_total pub (create_scan_message cfg d (pyNormalize t) loc now) tr
  exact ⟨b, pub', by simp [process_qr_code, h1, h2, h3, h4, h5, hs]⟩

theorem process_unknown (cfg : QRConfig) (d : String) (st : ScannerState)
    (pub : PublisherState) (t : String) (now : Int) (tr : Bool)
    (h1 : cfg.locations.lookup t = none)
    (h2 : cfg.locations.lookup (pyNormalize t) = none)
    (h3 : cfg.objects.lookup t = none)
    (h4 : cfg.objects.lookup (pyNormalize t) = none) :
    process_qr_code cfg d st pub t now tr =
      { result := none, state := st, publisher := pub } := by
  simp [process_qr_code, h1, h2, h3, h4]

theorem process_state_last_scans (cfg : QRConfig) (d : String)
    (st : ScannerState) (pub : PublisherState) (t : String) (now : Int)
    (tr : Bool) :
    (process_qr_code cfg d st pub t now tr).state.last_scans = st.last_scans := by
  rcases h1 : cfg.locations.lookup t with _ | d1
  · rcases h2 : cfg.locations.lookup (pyNormalize t) with _ | d2
    · rcases h3 : cfg.objects.lookup t with _ | i1
      · rcases h4 : cfg.objects.lookup (pyNormalize t) with _ | i2
        · rw [process_unknown cfg d st pub t now tr h1 h2 h3 h4]
        · rcases h5 : st.current_location with _ | loc
          · rw [process_obj_norm_unlocated cfg d st pub t now tr i2 h1 h2 h3 h4 h5]
          · obtain ⟨b, pub', hp⟩ :=
              process_obj_norm_located cfg d st pub t now tr i2 loc h1 h2 h3 h4 h5
            rw [hp]
      · rcases h5 : st.current_location with _ | loc
        · rw [process_obj_unlocated cfg d st pub t now tr i1 h1 h2 h3 h5]
        · obtain ⟨b, pub', hp⟩ :=
            process_obj_located cfg d st pub t now tr i1 loc h1 h2 h3 h5
          rw [hp]
    · rw [process_loc_hit_norm cfg d st pub t now tr d2 h1 h2]
  · rw [process_loc_hit_exact cfg d st pub t now tr d1 h1]

theorem process_classifies_isSome (cfg : QRConfig) (d : String)
    (st : ScannerState) (pub : PublisherState) (t : String) (now : Int)
    (tr : Bool) (h : classifies cfg t = true) :
    (process_qr_code cfg d st pub t now tr).result.isSome = true := by
  rcases h1 : cfg.locations.lookup t with _ | d1
  · rcases h2 : cfg.locations.lookup (pyNormalize t) with _ | d2
    · rcases h3 : cfg.objects.lookup t with _ | i1
      · rcases h4 : cfg.objects.lookup (pyNormalize t) with _ | i2
        · unfold classifies at h
          simp [h1, h2, h3, h4] at h
        · rcases h5 : st.current_location with _ | loc
          · rw [process_obj_norm_unlocated cfg d st pub t now tr i2 h1 h2 h3 h4 h5]
            rfl
          · obtain ⟨b, pub', hp⟩ :=
              process_obj_norm_located cfg d st pub t now tr i2 loc h1 h2 h3 h4 h5
            rw [hp]
            rfl
      · rcases h5 : st.current_location with _ | loc
        · rw [process_obj_unlocated cfg d st pub t now tr i1 h1 h2 h3 h5]
          rfl
        · obtain ⟨b, pub', hp⟩ :=
            process_obj_located cfg d st pub t now tr i1 loc h1 h2 h3 h5
          rw [hp]
          rfl
    · rw [process_loc_hit_norm cfg d st pub t now tr d2 h1 h2]
      rfl
  · rw [process_loc_hit_exact cfg d st pub t now tr d1 h1]
    rfl

theorem scan_step_skipped (cfg : QRConfig) (d : String) (st : ScannerState)
    (pub : PublisherState) (t : String) (now : Int) (tr : Bool) (ts : Int)
    (h1 : st.last_scans.lookup t = some ts)
    (h2 : now - ts < cfg.duplicate_scan_window_seconds) :
    scan_step cfg d st pub t now tr =
      { outcome := StepOutcome.skippedDuplicate, state := st, publisher := pub } := by
  simp [scan_step, is_duplicate_scan, h1, h2]

theorem scan_step_accepted (cfg : QRConfig) (d : String) (st : ScannerState)
    (pub : PublisherState) (t : String) (now : Int) (tr : Bool)
    (h : ∀ ts, st.last_scans.lookup t = some ts →
         ¬ now - ts < cfg.duplicate_scan_window_seconds) :
    scan_step cfg d st pub t now tr =
      { outcome := StepOutcome.processed
          (process_qr_code cfg d { st with last_scans := setTime st.last_scans t now }
            pub t now tr).result
        state := (process_qr_code cfg d
          { st with last_scans := setTime st.last_scans t now } pub t now tr).state
        publisher := (process_qr_code cfg d
          { st with last_scans := setTime st.last_scans t now } pub t now tr).publisher } := by
  rcases hl : st.last_scans.lookup t with _ | ts
  · simp [scan_step, is_duplicate_scan, hl]
  · simp [scan_step, is_duplicate_scan, hl, h ts hl]

theorem classifiedCount_processed (r : Option ScanResult) :
    classifiedCount (StepOutcome.processed r) = if r.isSome then 1 else 0 := by
  cases r <;> rfl

theorem should_process_fst (rules : ProcessingRules) (msg : ConsumerMessage)
    (now : Int) (h : rules.auto_update_location = true) :
    (should_process_message rules msg now).1 = true := by
  unfold should_process_message
  rcases hts : msg.timestamp with _ | ts
  · simp [h]
  · simp [h]
    split <;> rfl

/-- Claim C7: a consumed message whose body fails to deserialize as JSON
is rejected without requeue, and no store update, notification, derived
event or statistics change occurs for it. -/
theorem C7_poison_rejected_no_requeue (rules : ProcessingRules) (now : Int)
    (okA okB : Bool) (stores : Stores) (stats : Stats) :
    process_scan_message rules none now okA okB stores stats =
      { outcome := Outcome.rejected false, stores := stores, stats := stats,
        effects := noEffects } := rfl

/-- Claim C5: the publisher never raises to its caller; on any transport
failure (no channel, or basic_publish raising) it returns False and
appends the fully serialized message to the local log. -/
theorem C5_publish_never_raises (pub : PublisherState) (msg : ScanMessage)
    (tOk : Bool) :
    (∃ b pub', send_rabbitmq_message pub msg tOk = Except.ok (b, pub')) ∧
    (pub.hasChannel = false ∨ tOk = false →
      send_rabbitmq_message pub msg tOk =
        Except.ok (false,
          { pub with loggedLocally := pub.loggedLocally ++ [msg] })) := by
  constructor
  · exact send_total pub msg tOk
  · intro h
    rcases pub with ⟨hc, p, l⟩
    cases hc
    · cases tOk <;> rfl
    · cases tOk
      · rfl
      · simp at h

/-- Witness for C5 at a concrete publisher with a channel whose
transport fails. -/
theorem C5_publish_never_raises_witness :
    (∃ b pub', send_rabbitmq_message pub0 sampleMsg false = Except.ok (b, pub')) ∧
    send_rabbitmq_message pub0 sampleMsg false =
      Except.ok (false,
        { pub0 with loggedLocally := pub0.loggedLocally ++ [sampleMsg] }) :=
  ⟨(C5_publish_never_raises pub0 sampleMsg false).1,
   (C5_publish_never_raises pub0 sampleMsg false).2 (Or.inr rfl)⟩

/-- Claim C1 counterexample: Store-A (IES4) fails, Store-B (SOLR)
succeeds, yet the terminal outcome is Acked, not Rejected(requeue=true);
Store-B keeps the write. -/
theorem C1_counterexample :
    (process_scan_message rules0 (some msg0) 1000 false true stores0 stats0).outcome
        = Outcome.acked ∧
    (process_scan_message rules0 (some msg0) 1000 false true stores0 stats0).outcome
        ≠ Outcome.rejected true ∧
    (process_scan_message rules0 (some msg0) 1000 false true stores0 stats0).stores.solr
        = [storeWriteOf msg0] := by decide

/-- Claim C1 as amended: when Store-A fails and Store-B succeeds, the
message is Acked (the failure only increments failed_updates and skips
the notification/derived-event step), while Store-B's state still
reflects the successful write (no rollback). -/
theorem C1_partial_failure_is_acked (rules : ProcessingRules)
    (msg : ConsumerMessage) (now : Int) (stores : Stores) (stats : Stats)
    (hauto : rules.auto_update_location = true) :
    (process_scan_message rules (some msg) now false true stores stats).outcome
        = Outcome.acked ∧
    (process_scan_message rules (some msg) now false true stores stats).stores.solr
        = stores.solr ++ [storeWriteOf msg] ∧
    (process_scan_message rules (some msg) now false true stores stats).stores.ies4
        = stores.ies4 ∧
    (process_scan_message rules (some msg) now false true stores stats).stats.failed_updates
        = stats.failed_updates + 1 ∧
    (process_scan_message rules (some msg) now false true stores stats).effects.derivedEventPublished
        = false := by
  have hf := should_process_fst rules msg now hauto
  simp [process_scan_message, hf, process_location_update, update_tencent_ies4,
    update_apache_solr]

/-- Witness for C1's amended theorem at a concrete message. -/
theorem C1_partial_failure_is_acked_witness :
    rules0.auto_update_location = true ∧
    ((process_scan_message rules0 (some msg0) 1000 false true stores0 stats0).outcome
        = Outcome.acked ∧
     (process_scan_message rules0 (some msg0) 1000 false true stores0 stats0).stores.solr
        = stores0.solr ++ [storeWriteOf msg0] ∧
     (process_scan_message rules0 (some msg0) 1000 false true stores0 stats0).stores.ies4
        = stores0.ies4 ∧
     (process_scan_message rules0 (some msg0) 1000 false true stores0 stats0).stats.failed_updates
        = stats0.failed_updates + 1 ∧
     (process_scan_message rules0 (some msg0) 1000 false true stores0 stats0).effects.derivedEventPublished
        = false) :=
  ⟨rfl, C1_partial_failure_is_acked rules0 msg0 1000 stores0 stats0 rfl⟩

/-- Claim C4: both store updates are attempted on every filtered-in
message, a Store-A failure does not prevent the Store-B attempt, overall
success is the conjunction of the two results, and only overall success
reaches the notification check and the derived event emission. -/
theorem C4_dual_update_independent (rules : ProcessingRules)
    (msg : ConsumerMessage) (now : Int) (okA okB : Bool) (stores : Stores)
    (stats : Stats) (hauto : rules.auto_update_location = true) :
    (process_location_update msg okA okB stores).success = (okA && okB) ∧
    (process_location_update msg okA okB stores).attempts
        = [StoreTag.storeA, StoreTag.storeB] ∧
    (okA = false → okB = true →
      (process_location_update msg okA okB stores).stores.solr
          = stores.solr ++ [storeWriteOf msg] ∧
      (process_location_update msg okA okB stores).stores.ies4 = stores.ies4) ∧
    (process_scan_message rules (some msg) now okA okB stores stats).effects.attempts
        = [StoreTag.storeA, StoreTag.storeB] ∧
    (process_scan_message rules (some msg) now okA okB stores stats).effects.notificationChecked
        = (okA && okB) ∧
    (process_scan_message rules (some msg) now okA okB stores stats).effects.derivedEventPublished
        = (okA && okB) := by
  have hf := should_process_fst rules msg now hauto
  cases okA <;> cases okB <;>
    simp [process_scan_message, hf, process_location_update, update_tencent_ies4,
      update_apache_solr]

/-- Witness for C4 with Store-A failing and Store-B succeeding. -/
theorem C4_dual_update_independent_witness :
    rules0.auto_update_location = true ∧
    ((process_location_update msg0 false true stores0).stores.solr
        = stores0.solr ++ [storeWriteOf msg0] ∧
     (process_location_update msg0 false true stores0).stores.ies4
        = stores0.ies4) :=
  ⟨rfl,
   (C4_dual_update_independent rules0 msg0 1000 false true stores0 stats0 rfl).2.2.1
     rfl rfl⟩

/-- Claim C8: an old message timestamp only produces a staleness warning;
the filter still returns True and processing continues to the dual store
update. -/
theorem C8_stale_message_still_processed (rules : ProcessingRules)
    (msg : ConsumerMessage) (now ts : Int) (okA okB : Bool) (stores : Stores)
    (stats : Stats)
    (hauto : rules.auto_update_location = true)
    (hts : msg.timestamp = some ts)
    (hstale : now - ts > rules.notification_threshold_minutes * 60) :
    should_process_message rules msg now = (true, [FilterLog.staleWarning]) ∧
    (process_scan_message rules (some msg) now okA okB stores stats).effects.attempts
        = [StoreTag.storeA, StoreTag.storeB] ∧
    (process_scan_message rules (some msg) now okA okB stores stats).effects.filterLogs
        = [FilterLog.staleWarning] := by
  have h1 : should_process_message rules msg now = (true, [FilterLog.staleWarning]) := by
    unfold should_process_message
    simp [hauto, hts, hstale]
  refine ⟨h1, ?_, ?_⟩ <;>
    cases okA <;> cases okB <;>
      simp [process_scan_message, h1, process_location_update, update_tencent_ies4,
        update_apache_solr]

/-- Witness for C8 at a message 9000 seconds old against a 5 minute
threshold. -/
theorem C8_stale_message_still_processed_witness :
    rules0.auto_update_location = true ∧ msg0.timestamp = some 1000 ∧
    ((10000 : Int) - 1000 > rules0.notification_threshold_minutes * 60) ∧
    (should_process_message rules0 msg0 10000 = (true, [FilterLog.staleWarning]) ∧
     (process_scan_message rules0 (some msg0) 10000 true true stores0 stats0).effects.attempts
        = [StoreTag.storeA, StoreTag.storeB] ∧
     (process_scan_message rules0 (some msg0) 10000 true true stores0 stats0).effects.filterLogs
        = [FilterLog.staleWarning]) :=
  ⟨rfl, rfl, by decide,
   C8_stale_message_still_processed rules0 msg0 10000 1000 true true stores0 stats0
     rfl rfl (by decide)⟩

theorem scan_step_count_one (cfg : QRConfig) (d : String) (st : ScannerState)
    (pub : PublisherState) (t : String) (now : Int) (tr : Bool)
    (hacc : ∀ ts, st.last_scans.lookup t = some ts →
        ¬ now - ts < cfg.duplicate_scan_window_seconds)
    (hcl : classifies cfg t = true) :
    classifiedCount (scan_step cfg d st pub t now tr).outcome = 1 ∧
    (scan_step cfg d st pub t now tr).state.last_scans.lookup t = some now := by
  rw [scan_step_accepted cfg d st pub t now tr hacc]
  constructor
  · simp [classifiedCount_processed,
      process_classifies_isSome cfg d _ pub t now tr hcl]
  · simp [process_state_last_scans, lookup_setTime_self]

/-- Claim C2: the dedup gate returns true without refreshing the
timestamp inside the window and records now otherwise; consequently the
same classifiable raw text scanned twice within the window yields
exactly one classified event, and a third scan after the window elapses
yields a second one. -/
theorem C2_dedup_sliding_window :
    (∀ (window : Int) (st : ScannerState) (t : String) (now ts : Int),
       st.last_scans.lookup t = some ts →
       (now - ts < window →
          is_duplicate_scan window st t now = (true, st)) ∧
       (¬ now - ts < window →
          is_duplicate_scan window st t now =
            (false, { st with last_scans := setTime st.last_scans t now }))) ∧
    (∀ (window : Int) (st : ScannerState) (t : String) (now : Int),
       st.last_scans.lookup t = none →
       is_duplicate_scan window st t now =
         (false, { st with last_scans := setTime st.last_scans t now })) ∧
    (∀ (cfg : QRConfig) (d : String) (st : ScannerState) (pub : PublisherState)
       (t : String) (n1 n2 n3 : Int) (tr1 tr2 tr3 : Bool),
       st.last_scans.lookup t = none →
       classifies cfg t = true →
       n2 - n1 < cfg.duplicate_scan_window_seconds →
       ¬ n3 - n1 < cfg.duplicate_scan_window_seconds →
       classifiedCount (scan_step cfg d st pub t n1 tr1).outcome = 1 ∧
       classifiedCount (scan_step cfg d (scan_step cfg d st pub t n1 tr1).state
           (scan_step cfg d st pub t n1 tr1).publisher t n2 tr2).outcome = 0 ∧
       classifiedCount (scan_step cfg d
           (scan_step cfg d (scan_step cfg d st pub t n1 tr1).state
             (scan_step cfg d st pub t n1 tr1).publisher t n2 tr2).state
           (scan_step cfg d (scan_step cfg d st pub t n1 tr1).state
             (scan_step cfg d st pub t n1 tr1).publisher t n2 tr2).publisher
           t n3 tr3).outcome = 1) := by
  refine ⟨?_, ?_, ?_⟩
  · intro window st t now ts h
    constructor
    · intro hw
      simp [is_duplicate_scan, h, hw]
    · intro hw
      simp [is_duplicate_scan, h, hw]
  · intro window st t now h
    simp [is_duplicate_scan, h]
  · intro cfg d st pub t n1 n2 n3 tr1 tr2 tr3 h0 hcl h12 h13
    have hacc1 : ∀ ts, st.last_scans.lookup t = some ts →
        ¬ n1 - ts < cfg.duplicate_scan_window_seconds := by
      intro ts h
      rw [h0] at h
      cases h
    obtain ⟨c1, l1⟩ := scan_step_count_one cfg d st pub t n1 tr1 hacc1 hcl
    have e2 := scan_step_skipped cfg d (scan_step cfg d st pub t n1 tr1).state
      (scan_step cfg d st pub t n1 tr1).publisher t n2 tr2 n1 l1 h12
    have hacc3 : ∀ ts, (scan_step cfg d st pub t n1 tr1).state.last_scans.lookup t
        = some ts → ¬ n3 - ts < cfg.duplicate_scan_window_seconds := by
      intro ts h
      rw [l1] at h
      injection h with h'
      subst h'
      exact h13
    obtain ⟨c3, _⟩ := scan_step_count_one cfg d (scan_step cfg d st pub t n1 tr1).state
      (scan_step cfg d st pub t n1 tr1).publisher t n3 tr3 hacc3 hcl
    refine ⟨c1, ?_, ?_⟩
    · rw [e2]
      rfl
    · rw [e2]
      simpa using c3

/-- Witness for C2 at the repo configuration: a second S500 scan 10
seconds after the first is suppressed with the map untouched; after 40
seconds it is accepted and re-timestamped. -/
theorem C2_dedup_sliding_window_witness :
    stS.last_scans.lookup "S500" = some 0 ∧
    is_duplicate_scan 30 stS "S500" 10 = (true, stS) ∧
    is_duplicate_scan 30 stS "S500" 40 =
      (false, { stS with last_scans := setTime stS.last_scans "S500" 40 }) :=
  ⟨rfl,
   (C2_dedup_sliding_window.1 30 stS "S500" 10 0 rfl).1 (by decide),
   (C2_dedup_sliding_window.1 30 stS "S500" 40 0 rfl).2 (by decide)⟩

/-- Claim C3: every object code of the repo's object table yields
object_no_location (and no publish) while current_location is unset, and
an object result at the set location otherwise; in general an object
result can only arise while current_location is set to that location. -/
theorem C3_object_requires_location :
    (∀ (O : String) (info : ObjectInfo) (d : String) (st : ScannerState)
       (pub : PublisherState) (now : Int) (tr : Bool),
       (O, info) ∈ repoConfig.objects → st.current_location = none →
       process_qr_code repoConfig d st pub O now tr =
         { result := some (ScanResult.object_no_location O info)
           state := st, publisher := pub }) ∧
    (∀ (O : String) (info : ObjectInfo) (d : String) (st : ScannerState)
       (pub : PublisherState) (now : Int) (tr : Bool) (loc : String),
       (O, info) ∈ repoConfig.objects → st.current_location = some loc →
       ∃ sent pub',
         process_qr_code repoConfig d st pub O now tr =
           { result := some (ScanResult.object O info loc sent)
             state := st, publisher := pub' }) ∧
    (∀ (cfg : QRConfig) (d : String) (st : ScannerState) (pub : PublisherState)
       (t : String) (now : Int) (tr : Bool) (c : String) (i : ObjectInfo)
       (l : String) (s : Bool),
       (process_qr_code cfg d st pub t now tr).result
           = some (ScanResult.object c i l s) →
       st.current_location = some l) := by
  refine ⟨?_, ?_, ?_⟩
  · intro O info d st pub now tr hmem hloc
    simp only [repoConfig, repoObjects, List.mem_cons, List.not_mem_nil, or_false,
      Prod.mk.injEq] at hmem
    rcases hmem with ⟨rfl, rfl⟩ | ⟨rfl, rfl⟩ | ⟨rfl, rfl⟩ | ⟨rfl, rfl⟩ <;>
      exact process_obj_unlocated _ _ _ _ _ _ _ _ (by decide) (by decide) (by decide) hloc
  · intro O info d st pub now tr loc hmem hloc
    simp only [repoConfig, repoObjects, List.mem_cons, List.not_mem_nil, or_false,
      Prod.mk.injEq] at hmem
    rcases hmem with ⟨rfl, rfl⟩ | ⟨rfl, rfl⟩ | ⟨rfl, rfl⟩ | ⟨rfl, rfl⟩ <;>
      exact process_obj_located _ _ _ _ _ _ _ _ _ (by decide) (by decide) (by decide) hloc
  · intro cfg d st pub t now tr c i l s h
    rcases h1 : cfg.locations.lookup t with _ | d1
    · rcases h2 : cfg.locations.lookup (pyNormalize t) with _ | d2
      · rcases h3 : cfg.objects.lookup t with _ | i1
        · rcases h4 : cfg.objects.lookup (pyNormalize t) with _ | i2
          · rw [process_unknown cfg d st pub t now tr h1 h2 h3 h4] at h
            simp at h
          · rcases h5 : st.current_location with _ | loc
            · rw [process_obj_norm_unlocated cfg d st pub t now tr i2 h1 h2 h3 h4 h5] at h
              simp at h
            · obtain ⟨b, pub', hp⟩ :=
                process_obj_norm_located cfg d st pub t now tr i2 loc h1 h2 h3 h4 h5
              rw [hp] at h
              simp only [Option.some.injEq, ScanResult.object.injEq] at h
              obtain ⟨-, -, h6, -⟩ := h
              rw [h6]
        · rcases h5 : st.current_location with _ | loc
          · rw [process_obj_unlocated cfg d st pub t now tr i1 h1 h2 h3 h5] at h
            simp at h
          · obtain ⟨b, pub', hp⟩ :=
              process_obj_located cfg d st pub t now tr i1 loc h1 h2 h3 h5
            rw [hp] at h
            simp only [Option.some.injEq, ScanResult.object.injEq] at h
            obtain ⟨-, -, h6, -⟩ := h
            rw [h6]
      · rw [process_loc_hit_norm cfg d st pub t now tr d2 h1 h2] at h
        simp at h
    · rw [process_loc_hit_exact cfg d st pub t now tr d1 h1] at h
      simp at h

/-- Witness for C3: scanning S500 with no location set yields
object_no_location and leaves state and publisher untouched; with OP1
set it yields an object result at OP1. -/
theorem C3_object_requires_location_witness :
    (("S500", (⟨"S500", "Vehicle", "Russian Federation", "S-500 Prometheus"⟩ : ObjectInfo))
        ∈ repoConfig.objects ∧
     process_qr_code repoConfig "dev" st0 pub0 "S500" 7 true =
       { result := some (ScanResult.object_no_location "S500"
           ⟨"S500", "Vehicle", "Russian Federation", "S-500 Prometheus"⟩)
         state := st0, publisher := pub0 }) ∧
    (∃ sent pub',
       process_qr_code repoConfig "dev"
           { current_location := some "OP1", last_scans := [] } pub0 "S500" 7 true =
         { result := some (ScanResult.object "S500"
             ⟨"S500", "Vehicle", "Russian Federation", "S-500 Prometheus"⟩ "OP1" sent)
           state := { current_location := some "OP1", last_scans := [] }
           publisher := pub' }) :=
  ⟨⟨by decide,
    C3_object_requires_location.1 "S500"
      ⟨"S500", "Vehicle", "Russian Federation", "S-500 Prometheus"⟩ "dev" st0 pub0 7 true
      (by decide) rfl⟩,
   C3_object_requires_location.2.1 "S500"
     ⟨"S500", "Vehicle", "Russian Federation", "S-500 Prometheus"⟩ "dev"
     { current_location := some "OP1", last_scans := [] } pub0 7 true "OP1"
     (by decide) rfl⟩

/-- Claim C6: the interpreter checks the location table first (exact raw
text, then the trimmed-and-uppercased form), consults the object table
only when both location lookups miss, sets current_location to the
matched key and returns a location result on a location hit, and returns
the unknown classification (None) when neither table matches. -/
theorem C6_location_table_first (cfg : QRConfig) (d : String)
    (st : ScannerState) (pub : PublisherState) (t : String) (now : Int)
    (tr : Bool) :
    (∀ desc, cfg.locations.lookup t = some desc →
       process_qr_code cfg d st pub t now tr =
         { result := some (ScanResult.location t desc)
           state := { st with current_location := some t }
           publisher := pub }) ∧
    (cfg.locations.lookup t = none →
       ∀ desc, cfg.locations.lookup (pyNormalize t) = some desc →
       process_qr_code cfg d st pub t now tr =
         { result := some (ScanResult.location (pyNormalize t) desc)
           state := { st with current_location := some (pyNormalize t) }
           publisher := pub }) ∧
    (cfg.locations.lookup t = none →
       cfg.locations.lookup (pyNormalize t) = none →
       ∀ info, cfg.objects.lookup t = some info →
       (st.current_location = none →
          process_qr_code cfg d st pub t now tr =
            { result := some (ScanResult.object_no_location t info)
              state := st, publisher := pub }) ∧
       (∀ loc, st.current_location = some loc →
          ∃ sent pub',
            process_qr_code cfg d st pub t now tr =
              { result := some (ScanResult.object t info loc sent)
                state := st, publisher := pub' })) ∧
    (cfg.locations.lookup t = none →
       cfg.locations.lookup (pyNormalize t) = none →
       cfg.objects.lookup t = none →
       ∀ info, cfg.objects.lookup (pyNormalize t) = some info →
       (st.current_location = none →
          process_qr_code cfg d st pub t now tr =
            { result := some (ScanResult.object_no_location (pyNormalize t) info)
              state := st, publisher := pub }) ∧
       (∀ loc, st.current_location = some loc →
          ∃ sent pub',
            process_qr_code cfg d st pub t now tr =
              { result := some (ScanResult.object (pyNormalize t) info loc sent)
                state := st, publisher := pub' })) ∧
    (cfg.locations.lookup t = none →
       cfg.locations.lookup (pyNormalize t) = none →
       cfg.objects.lookup t = none →
       cfg.objects.lookup (pyNormalize t) = none →
       process_qr_code cfg d st pub t now tr =
         { result := none, state := st, publisher := pub }) := by
  refine ⟨?_, ?_, ?_, ?_, ?_⟩
  · intro desc h
    exact process_loc_hit_exact cfg d st pub t now tr desc h
  · intro h1 desc h2
    exact process_loc_hit_norm cfg d st pub t now tr desc h1 h2
  · intro h1 h2 info h3
    exact ⟨fun h4 => process_obj_unlocated cfg d st pub t now tr info h1 h2 h3 h4,
      fun loc h4 => process_obj_located cfg d st pub t now tr info loc h1 h2 h3 h4⟩
  · intro h1 h2 h3 info h4
    exact ⟨fun h5 => process_obj_norm_unlocated cfg d st pub t now tr info h1 h2 h3 h4 h5,
      fun loc h5 => process_obj_norm_located cfg d st pub t now tr info loc h1 h2 h3 h4 h5⟩
  · intro h1 h2 h3 h4
    exact process_unknown cfg d st pub t now tr h1 h2 h3 h4

/-- Witness for C6: OP1 hits the location table exactly and sets
current_location; ZZZZ misses every lookup and is unknown. -/
theorem C6_location_table_first_witness :
    process_qr_code repoConfig "dev" st0 pub0 "OP1" 3 true =
      { result := some (ScanResult.location "OP1" "Donetsk Oblas")
        state := { st0 with current_location := some "OP1" }
        publisher := pub0 } ∧
    process_qr_code repoConfig "dev" st0 pub0 "ZZZZ" 3 true =
      { result := none, state := st0, publisher := pub0 } :=
  ⟨(C6_location_table_first repoConfig "dev" st0 pub0 "OP1" 3 true).1
     "Donetsk Oblas" (by decide),
   (C6_location_table_first repoConfig "dev" st0 pub0 "ZZZZ" 3 true).2.2.2.2
     (by decide) (by decide) (by decide) (by decide)⟩

/-- Claim C9 counterexample: scanning the unknown text ZZZZ from a fresh
state publishes nothing and leaves current_location unset, but it does
change the dedup map: last_scans gains the entry (ZZZZ, now), so the
state is not identical to the state before the scan. -/
theorem C9_counterexample :
    (scan_step repoConfig "dev" st0 pub0 "ZZZZ" 100 true).outcome
        = StepOutcome.processed none ∧
    (scan_step repoConfig "dev" st0 pub0 "ZZZZ" 100 true).state.last_scans
        = [("ZZZZ", 100)] ∧
    (scan_step repoConfig "dev" st0 pub0 "ZZZZ" 100 true).state.last_scans
        ≠ st0.last_scans := by decide

/-- Claim C9 as amended: a raw text matching neither table leaves
current_location and the publisher state unchanged and yields no
classified event, but an accepted detection still records its timestamp
in the dedup map (last_scans is not unchanged). -/
theorem C9_unknown_text_frame (cfg : QRConfig) (d : String)
    (st : ScannerState) (pub : PublisherState) (t : String) (now : Int)
    (tr : Bool)
    (h1 : cfg.locations.lookup t = none)
    (h2 : cfg.locations.lookup (pyNormalize t) = none)
    (h3 : cfg.objects.lookup t = none)
    (h4 : cfg.objects.lookup (pyNormalize t) = none) :
    (scan_step cfg d st pub t now tr).state.current_location
        = st.current_location ∧
    (scan_step cfg d st pub t now tr).publisher = pub ∧
    classifiedCount (scan_step cfg d st pub t now tr).outcome = 0 ∧
    (st.last_scans.lookup t = none →
      (scan_step cfg d st pub t now tr).state.last_scans
          = setTime st.last_scans t now) := by
  rcases hl : st.last_scans.lookup t with _ | ts
  · have hacc : ∀ ts, st.last_scans.lookup t = some ts →
        ¬ now - ts < cfg.duplicate_scan_window_seconds := by
      intro ts h
      rw [hl] at h
      cases h
    rw [scan_step_accepted cfg d st pub t now tr hacc,
      process_unknown cfg d _ pub t now tr h1 h2 h3 h4]
    exact ⟨rfl, rfl, rfl, fun _ => rfl⟩
  · by_cases hw : now - ts < cfg.duplicate_scan_window_seconds
    · rw [scan_step_skipped cfg d st pub t now tr ts hl hw]
      refine ⟨rfl, rfl, rfl, fun hn => ?_⟩
      simp [hl] at hn
    · have hacc : ∀ ts', st.last_scans.lookup t = some ts' →
          ¬ now - ts' < cfg.duplicate_scan_window_seconds := by
        intro ts' h
        rw [hl] at h
        injection h with h'
        subst h'
        exact hw
      rw [scan_step_accepted cfg d st pub t now tr hacc,
        process_unknown cfg d _ pub t now tr h1 h2 h3 h4]
      refine ⟨rfl, rfl, rfl, fun hn => ?_⟩
      simp [hl] at hn

/-- Witness for C9's amended theorem at the concrete ZZZZ scan. -/
theorem C9_unknown_text_frame_witness :
    (scan_step repoConfig "dev" st0 pub0 "ZZZZ" 100 true).state.current_location
        = st0.current_location ∧
    (scan_step repoConfig "dev" st0 pub0 "ZZZZ" 100 true).publisher = pub0 ∧
    classifiedCount (scan_step repoConfig "dev" st0 pub0 "ZZZZ" 100 true).outcome
        = 0 ∧
    (st0.last_scans.lookup "ZZZZ" = none →
      (scan_step repoConfig "dev" st0 pub0 "ZZZZ" 100 true).state.last_scans
          = setTime st0.last_scans "ZZZZ" 100) :=
  C9_unknown_text_frame repoConfig "dev" st0 pub0 "ZZZZ" 100 true
    (by decide) (by decide) (by decide) (by decide)

/-- Claim C10: the duplicate gate runs before classification: a
detection inside the window is suppressed for any raw text (known or
unknown alike) with the state untouched; any accepted detection records
now under the raw text; a first-ever text grows the map by one entry. -/
theorem C10_dedup_records_every_accepted (cfg : QRConfig) (d : String)
    (st : ScannerState) (pub : PublisherState) (t : String) (now : Int)
    (tr : Bool) :
    (∀ ts, st.last_scans.lookup t = some ts →
       now - ts < cfg.duplicate_scan_window_seconds →
       scan_step cfg d st pub t now tr =
         { outcome := StepOutcome.skippedDuplicate, state := st,
           publisher := pub }) ∧
    ((∀ ts, st.last_scans.lookup t = some ts →
        ¬ now - ts < cfg.duplicate_scan_window_seconds) →
       (scan_step cfg d st pub t now tr).state.last_scans
           = setTime st.last_scans t now ∧
       (scan_step cfg d st pub t now tr).state.last_scans.lookup t = some now) ∧
    (st.last_scans.lookup t = none →
       (scan_step cfg d st pub t now tr).state.last_scans.length
           = st.last_scans.length + 1) := by
  refine ⟨fun ts h1 h2 => scan_step_skipped cfg d st pub t now tr ts h1 h2, ?_, ?_⟩
  · intro h
    rw [scan_step_accepted cfg d st pub t now tr h]
    constructor
    · rw [process_state_last_scans]
    · rw [process_state_last_scans]
      exact lookup_setTime_self st.last_scans t now
  · intro hn
    have h : ∀ ts, st.last_scans.lookup t = some ts →
        ¬ now - ts < cfg.duplicate_scan_window_seconds := by
      intro ts h'
      rw [hn] at h'
      cases h'
    rw [scan_step_accepted cfg d st pub t now tr h, process_state_last_scans]
    rw [setTime_of_lookup_none st.last_scans t now hn]
    simp

/-- Witness for C10: a repeated S500 scan 10 seconds after the recorded
one is suppressed with nothing changed; a first ZZZZ scan grows the
dedup map by one entry. -/
theorem C10_dedup_records_every_accepted_witness :
    scan_step repoConfig "dev" stS pub0 "S500" 10 true =
      { outcome := StepOutcome.skippedDuplicate, state := stS,
        publisher := pub0 } ∧
    (scan_step repoConfig "dev" st0 pub0 "ZZZZ" 10 true).state.last_scans.length
        = st0.last_scans.length + 1 :=
  ⟨(C10_dedup_records_every_accepted repoConfig "dev" stS pub0 "S500" 10 true).1
     0 rfl (by decide),
   (C10_dedup_records_every_accepted repoConfig "dev" st0 pub0 "ZZZZ" 10 true).2.2
     rfl⟩
